import Mathlib

/-!
Verification of the tower-governor admission-control middleware
(src/src/lib.rs) against its specification.

The embedding models the data the middleware manipulates (requests,
responses, headers), the four-shape completion state machine `Kind` with
its `poll` function, and the two `Service::call` implementations
(`NoOpMiddleware` and `StateInformationMiddleware` variants).  The
external `governor` crate's quota tracker and the `KeyExtractor`
implementations live outside this repository's sources; the tracker is
modelled from the spec (§4.3) and the extractor is an arbitrary function
parameter, matching its one-operation contract (§4.1).
-/

namespace TowerGovernor

/-- An HTTP header: a name/value pair. -/
structure Header where
  name : String
  value : String
deriving DecidableEq, Repr

/-- The response envelope: status code, header list and body. -/
structure Response where
  status : Nat
  headers : List Header
  body : String
deriving DecidableEq, Repr

/-- An inbound HTTP request: its method and the metadata headers a key
extractor may read. -/
structure Request where
  method : String
  headers : List Header
deriving DecidableEq, Repr

/-- `HeaderMap::insert` semantics: any existing entry under the name is
replaced, otherwise the pair is appended. -/
def insertHeader (hs : List Header) (n v : String) : List Header :=
  hs.filter (fun h => h.name ≠ n) ++ [⟨n, v⟩]

/-- Look up the value stored under a header name. -/
def getHeader (hs : List Header) (n : String) : Option String :=
  (hs.find? (fun h => h.name == n)).map (fun h => h.value)

/-- A Rust `Poll` outcome. -/
inductive PollResult (α : Type) where
  | ready (value : α)
  | pending
deriving DecidableEq, Repr

deriving instance DecidableEq for Except

/-- The downstream handler's in-flight completion: it answers `pending`
for `pendingPolls` more polls, then readies with `result` (a response or
an opaque downstream error of type `E`). -/
structure DownFuture (E : Type) where
  pendingPolls : Nat
  result : Except E Response
deriving DecidableEq, Repr

/-- One poll of the wrapped downstream completion. -/
def pollDown {E : Type} (f : DownFuture E) :
    PollResult (Except E Response) × DownFuture E :=
  if f.pendingPolls = 0 then (.ready f.result, f)
  else (.pending, { f with pendingPolls := f.pendingPolls - 1 })

/-- The four continuation shapes of `Kind<F>` (src/src/lib.rs, lines
152-174).  `error` stores the synthesized response as an `Option`, as the
Rust `error_response: Option<Response<HttpBody>>` field does. -/
inductive Kind (E : Type) where
  | passthrough (future : DownFuture E)
  | rateLimitHeader (future : DownFuture E)
      (burst_size : Nat) (remaining_burst_capacity : Nat)
  | whitelistedHeader (future : DownFuture E)
  | error (error_response : Option Response)
deriving DecidableEq, Repr

/-- The constructor tag of a `Kind`, forgetting its payload. -/
inductive KindTag where
  | passthrough
  | rateLimitHeader
  | whitelistedHeader
  | error
deriving DecidableEq, Repr

/-- Which of the four shapes a `Kind` value is in. -/
def kindTag {E : Type} : Kind E → KindTag
  | .passthrough _ => .passthrough
  | .rateLimitHeader _ _ _ => .rateLimitHeader
  | .whitelistedHeader _ => .whitelistedHeader
  | .error _ => .error

/-- `ResponseFuture::poll` (src/src/lib.rs, lines 184-230).  Returns the
poll output together with the state after the poll; the output is `none`
exactly when the Rust code would panic (the `unwrap` on a `None`
`error_response`).  Faithful to the source: the `RateLimitHeader` branch
inserts the two quota headers captured at construction, the
`WhitelistedHeader` branch inserts the marker header, a downstream `Err`
is returned unchanged by the `?` operator, and the `Error` branch builds
a fresh response from only the stored response's status, with no headers
and the fixed body "Too many requests". -/
def pollKind {E : Type} : Kind E →
    Option (PollResult (Except E Response)) × Kind E
  | .passthrough f =>
    let p := pollDown f
    (some p.1, .passthrough p.2)
  | .rateLimitHeader f b rem =>
    match pollDown f with
    | (.ready (.ok resp), f') =>
      (some (.ready (.ok { resp with
          headers := insertHeader
            (insertHeader resp.headers "x-ratelimit-limit" (toString b))
            "x-ratelimit-remaining" (toString rem) })),
       .rateLimitHeader f' b rem)
    | (.ready (.error e), f') =>
      (some (.ready (.error e)), .rateLimitHeader f' b rem)
    | (.pending, f') => (some .pending, .rateLimitHeader f' b rem)
  | .whitelistedHeader f =>
    match pollDown f with
    | (.ready (.ok resp), f') =>
      (some (.ready (.ok { resp with
          headers := insertHeader resp.headers "x-ratelimit-whitelisted" "true" })),
       .whitelistedHeader f')
    | (.ready (.error e), f') =>
      (some (.ready (.error e)), .whitelistedHeader f')
    | (.pending, f') => (some .pending, .whitelistedHeader f')
  | .error opt =>
    match opt with
    | some er =>
      (some (.ready (.ok { status := er.status, headers := [],
                           body := "Too many requests" })),
       .error (some er))
    | none => (none, .error none)

/-- The output of the `(n+1)`-th poll of a `ResponseFuture`, together
with the state after it (`pollN k 0` is the first poll). -/
def pollN {E : Type} : Kind E → Nat →
    Option (PollResult (Except E Response)) × Kind E
  | k, 0 => pollKind k
  | k, n + 1 => pollN (pollKind k).2 n

/-- Snapshot data the admitted branch reads from the limiter:
`snapshot.quota().burst_size().get()` and
`snapshot.remaining_burst_capacity()`. -/
structure StateSnapshot where
  burst_size : Nat
  remaining_burst_capacity : Nat
deriving DecidableEq, Repr

/-- `NotUntil` data the denied branch reads: the wait time in whole
seconds (`wait_time_from(now).as_secs()`) and the quota's burst size. -/
structure NotUntil where
  wait_secs : Nat
  burst_size : Nat
deriving DecidableEq, Repr

/-- Result of one `Service::call`: the constructed `ResponseFuture`'s
state, plus whether the downstream service (`self.inner.call`) and the
limiter (`self.limiter.check_key`) were invoked while building it. -/
structure CallResult (E : Type) where
  kind : Kind E
  innerCalled : Bool
  trackerConsulted : Bool
deriving DecidableEq, Repr

/-- The method allow-list test (src/src/lib.rs, lines 72-79 and
251-258): with a configured list, a method not contained in it bypasses
limiting; with no configured list nothing bypasses. -/
def bypassesLimiting (methods : Option (List String)) (req : Request) : Bool :=
  match methods with
  | some ms => !(ms.contains req.method)
  | none => false

/-- `Governor::<K, NoOpMiddleware, S>::call` (src/src/lib.rs, lines
71-141).  The key extractor and the limiter's `check_key` are passed as
functions; an extraction failure carries the error's `to_string` text.
A bypassed method and an admitted request both build `Kind::Passthrough`
around the downstream future; a denied request builds `Kind::Error`
around a 429 response carrying only the `x-ratelimit-after` header; an
extraction failure builds `Kind::Error` around a headerless 500 response
whose body is the error text. -/
def callNoOp {K E : Type} (methods : Option (List String))
    (extract : Request → Except String K)
    (checkKey : K → Except NotUntil StateSnapshot)
    (inner : Request → DownFuture E) (req : Request) : CallResult E :=
  if bypassesLimiting methods req then
    { kind := .passthrough (inner req),
      innerCalled := true, trackerConsulted := false }
  else
    match extract req with
    | .ok key =>
      match checkKey key with
      | .ok _ =>
        { kind := .passthrough (inner req),
          innerCalled := true, trackerConsulted := true }
      | .error negative =>
        { kind := .error (some
            { status := 429,
              headers := [⟨"x-ratelimit-after", toString negative.wait_secs⟩],
              body := "Too many requests" }),
          innerCalled := false, trackerConsulted := true }
    | .error e =>
      { kind := .error (some { status := 500, headers := [], body := e }),
        innerCalled := false, trackerConsulted := false }

/-- `Governor::<K, StateInformationMiddleware, S>::call` (src/src/lib.rs,
lines 250-327).  A bypassed method builds `Kind::WhitelistedHeader`; an
admitted request builds `Kind::RateLimitHeader` capturing the snapshot's
burst size and remaining capacity at decision time; a denied request
builds `Kind::Error` around a 429 response carrying the
`x-ratelimit-after`, `x-ratelimit-limit` and `x-ratelimit-remaining`
headers in builder order; an extraction failure builds `Kind::Error`
around a headerless 500 response whose body is the error text. -/
def callStateInfo {K E : Type} (methods : Option (List String))
    (extract : Request → Except String K)
    (checkKey : K → Except NotUntil StateSnapshot)
    (inner : Request → DownFuture E) (req : Request) : CallResult E :=
  if bypassesLimiting methods req then
    { kind := .whitelistedHeader (inner req),
      innerCalled := true, trackerConsulted := false }
  else
    match extract req with
    | .ok key =>
      match checkKey key with
      | .ok snapshot =>
        { kind := .rateLimitHeader (inner req)
            snapshot.burst_size snapshot.remaining_burst_capacity,
          innerCalled := true, trackerConsulted := true }
      | .error negative =>
        { kind := .error (some
            { status := 429,
              headers :=
                [⟨"x-ratelimit-after", toString negative.wait_secs⟩,
                 ⟨"x-ratelimit-limit", toString negative.burst_size⟩,
                 ⟨"x-ratelimit-remaining", "0"⟩],
              body := "Too many requests" }),
          innerCalled := false, trackerConsulted := true }
    | .error e =>
      { kind := .error (some { status := 500, headers := [], body := e }),
        innerCalled := false, trackerConsulted := false }

/-- Modelled from the spec: the quota configuration of §4.3 and §3 — a
burst size (maximum tokens) and the emission period (time units per
refilled token).  The tracker itself is the external `governor` crate,
whose internals are not part of this repository's sources. -/
structure TrackerConfig where
  burst : Nat
  period : Nat
deriving DecidableEq, Repr

/-- Modelled from the spec: per-key quota state (§3) — remaining tokens
and the time up to which refill has been accounted. -/
structure BucketState where
  tokens : Nat
  lastRefill : Nat
deriving DecidableEq, Repr

/-- Modelled from the spec: continuous refill (§4.3) — one token per
`period` elapsed time units, capped at the burst size. -/
def refillBucket (cfg : TrackerConfig) (st : BucketState) (now : Nat) :
    BucketState :=
  if cfg.period = 0 then { tokens := cfg.burst, lastRefill := now }
  else
    let added := (now - st.lastRefill) / cfg.period
    { tokens := min cfg.burst (st.tokens + added),
      lastRefill := st.lastRefill + added * cfg.period }

/-- Modelled from the spec: the tracker's atomic `decide(key)` capability
(§4.3) — refill, then consume exactly one token if one is available,
otherwise deny with the wait time until the next token.  One atomic
read-modify-write: the returned state is the same state the snapshot was
taken from. -/
def trackerDecide (cfg : TrackerConfig) (st : BucketState) (now : Nat) :
    Except NotUntil StateSnapshot × BucketState :=
  let st' := refillBucket cfg st now
  if st'.tokens = 0 then
    (.error { wait_secs := st'.lastRefill + cfg.period - now,
              burst_size := cfg.burst }, st')
  else
    (.ok { burst_size := cfg.burst,
           remaining_burst_capacity := st'.tokens - 1 },
     { st' with tokens := st'.tokens - 1 })

/-- Modelled from the spec: a linearized sequence of atomic decisions for
one key (§5 reduces any concurrent interleaving to such a sequence by the
tracker's per-key atomicity contract).  Returns the number of admitted
decisions and the final per-key state. -/
def runDecides (cfg : TrackerConfig) (st : BucketState) :
    List Nat → Nat × BucketState
  | [] => (0, st)
  | t :: ts =>
    match trackerDecide cfg st t with
    | (.ok _, st') =>
      let r := runDecides cfg st' ts
      (r.1 + 1, r.2)
    | (.error _, st') => runDecides cfg st' ts

/-! Resolution lemmas: how each shape of the completion state machine
behaves over the polls that drive its wrapped downstream future to
readiness. -/

lemma pollKind_passthrough_pending {E : Type} (p : Nat)
    (r : Except E Response) :
    pollKind (.passthrough ⟨p + 1, r⟩) =
      (some .pending, .passthrough ⟨p, r⟩) := by
  simp [pollKind, pollDown]

lemma pollN_passthrough {E : Type} (p : Nat) (r : Except E Response) :
    pollN (.passthrough ⟨p, r⟩) p =
      (some (.ready r), .passthrough ⟨0, r⟩) := by
  induction p with
  | zero => simp [pollN, pollKind, pollDown]
  | succ n ih =>
    show pollN (pollKind (.passthrough ⟨n + 1, r⟩)).2 n = _
    rw [pollKind_passthrough_pending]
    exact ih

lemma pollN_rateLimitHeader_ok {E : Type} (p b rem : Nat)
    (resp : Response) :
    pollN (E := E) (.rateLimitHeader ⟨p, .ok resp⟩ b rem) p =
      (some (.ready (.ok { resp with
          headers := insertHeader
            (insertHeader resp.headers "x-ratelimit-limit" (toString b))
            "x-ratelimit-remaining" (toString rem) })),
       .rateLimitHeader ⟨0, .ok resp⟩ b rem) := by
  induction p with
  | zero => simp [pollN, pollKind, pollDown]
  | succ n ih =>
    show pollN (pollKind (.rateLimitHeader ⟨n + 1, .ok resp⟩ b rem)).2 n = _
    have h : pollKind (E := E) (.rateLimitHeader ⟨n + 1, .ok resp⟩ b rem) =
        (some .pending, .rateLimitHeader ⟨n, .ok resp⟩ b rem) := by
      simp [pollKind, pollDown]
    rw [h]
    exact ih

lemma pollN_rateLimitHeader_err {E : Type} (p b rem : Nat) (e : E) :
    pollN (.rateLimitHeader ⟨p, .error e⟩ b rem) p =
      (some (.ready (.error e)), .rateLimitHeader ⟨0, .error e⟩ b rem) := by
  induction p with
  | zero => simp [pollN, pollKind, pollDown]
  | succ n ih =>
    show pollN (pollKind (.rateLimitHeader ⟨n + 1, .error e⟩ b rem)).2 n = _
    have h : pollKind (.rateLimitHeader ⟨n + 1, .error e⟩ b rem) =
        (some .pending, .rateLimitHeader ⟨n, .error e⟩ b rem) := by
      simp [pollKind, pollDown]
    rw [h]
    exact ih

lemma pollN_whitelistedHeader_ok {E : Type} (p : Nat) (resp : Response) :
    pollN (E := E) (.whitelistedHeader ⟨p, .ok resp⟩) p =
      (some (.ready (.ok { resp with
          headers := insertHeader resp.headers "x-ratelimit-whitelisted" "true" })),
       .whitelistedHeader ⟨0, .ok resp⟩) := by
  induction p with
  | zero => simp [pollN, pollKind, pollDown]
  | succ n ih =>
    show pollN (pollKind (E := E) (.whitelistedHeader ⟨n + 1, .ok resp⟩)).2 n = _
    have h : pollKind (E := E) (.whitelistedHeader ⟨n + 1, .ok resp⟩) =
        (some .pending, .whitelistedHeader ⟨n, .ok resp⟩) := by
      simp [pollKind, pollDown]
    rw [h]
    exact ih

lemma pollN_whitelistedHeader_err {E : Type} (p : Nat) (e : E) :
    pollN (.whitelistedHeader ⟨p, .error e⟩) p =
      (some (.ready (.error e)), .whitelistedHeader ⟨0, .error e⟩) := by
  induction p with
  | zero => simp [pollN, pollKind, pollDown]
  | succ n ih =>
    show pollN (pollKind (.whitelistedHeader ⟨n + 1, .error e⟩)).2 n = _
    have h : pollKind (.whitelistedHeader ⟨n + 1, .error e⟩) =
        (some .pending, .whitelistedHeader ⟨n, .error e⟩) := by
      simp [pollKind, pollDown]
    rw [h]
    exact ih

lemma pollN_error_some {E : Type} (n : Nat) (r : Response) :
    pollN (E := E) (.error (some r)) n =
      (some (.ready (.ok { status := r.status, headers := [],
                           body := "Too many requests" })),
       .error (some r)) := by
  induction n with
  | zero => simp [pollN, pollKind]
  | succ m ih =>
    show pollN (pollKind (E := E) (.error (some r))).2 m = _
    have h : (pollKind (E := E) (.error (some r))).2 = .error (some r) := by
      simp [pollKind]
    rw [h]
    exact ih

lemma kindTag_pollKind {E : Type} (k : Kind E) :
    kindTag (pollKind k).2 = kindTag k := by
  cases k with
  | passthrough f => simp [pollKind, kindTag]
  | rateLimitHeader f b rem =>
    rcases h : pollDown f with ⟨pr, f'⟩
    cases pr with
    | ready v =>
      cases v with
      | ok resp => simp [pollKind, h, kindTag]
      | error e => simp [pollKind, h, kindTag]
    | pending => simp [pollKind, h, kindTag]
  | whitelistedHeader f =>
    rcases h : pollDown f with ⟨pr, f'⟩
    cases pr with
    | ready v =>
      cases v with
      | ok resp => simp [pollKind, h, kindTag]
      | error e => simp [pollKind, h, kindTag]
    | pending => simp [pollKind, h, kindTag]
  | error opt => cases opt <;> simp [pollKind, kindTag]

/-! Lemmas about the spec-modelled tracker. -/

lemma refillBucket_tokens_le (cfg : TrackerConfig) (st : BucketState)
    (now : Nat) : (refillBucket cfg st now).tokens ≤ cfg.burst := by
  unfold refillBucket
  by_cases h : cfg.period = 0
  · simp [h]
  · simp [h, Nat.min_le_left]

lemma refillBucket_in_window {cfg : TrackerConfig} {st : BucketState}
    {t : Nat} (hper : 0 < cfg.period) (htok : st.tokens ≤ cfg.burst)
    (ht : t < st.lastRefill + cfg.period) :
    refillBucket cfg st t = st := by
  unfold refillBucket
  rw [if_neg (Nat.pos_iff_ne_zero.mp hper)]
  have hdiv : (t - st.lastRefill) / cfg.period = 0 :=
    Nat.div_eq_of_lt (by omega)
  simp [hdiv, Nat.min_eq_right htok]

lemma trackerDecide_ok_burst {cfg : TrackerConfig} {st : BucketState}
    {now : Nat} {snap : StateSnapshot}
    (h : (trackerDecide cfg st now).1 = .ok snap) :
    snap.burst_size = cfg.burst ∧
    snap.remaining_burst_capacity ≤ cfg.burst := by
  unfold trackerDecide at h
  by_cases h0 : (refillBucket cfg st now).tokens = 0
  · simp [h0] at h
  · simp [h0] at h
    have hle := refillBucket_tokens_le cfg st now
    constructor
    · rw [← h]
    · rw [← h]
      simp only
      omega

lemma runDecides_window_le {cfg : TrackerConfig} (hper : 0 < cfg.period) :
    ∀ (times : List Nat) (st : BucketState),
      st.tokens ≤ cfg.burst →
      (∀ t ∈ times, t < st.lastRefill + cfg.period) →
      (runDecides cfg st times).1 ≤ st.tokens := by
  intro times
  induction times with
  | nil => intro st _ _; simp [runDecides]
  | cons t ts ih =>
    intro st htok hwin
    have ht : t < st.lastRefill + cfg.period := hwin t (by simp)
    have hrefill : refillBucket cfg st t = st :=
      refillBucket_in_window hper htok ht
    by_cases h0 : st.tokens = 0
    · have hdec : trackerDecide cfg st t =
          (.error { wait_secs := st.lastRefill + cfg.period - t,
                    burst_size := cfg.burst }, st) := by
        unfold trackerDecide
        rw [hrefill, if_pos h0]
      have hstep : runDecides cfg st (t :: ts) = runDecides cfg st ts := by
        simp only [runDecides, hdec]
      rw [hstep]
      exact ih st htok (fun u hu => hwin u (by simp [hu]))
    · have hdec : trackerDecide cfg st t =
          (.ok { burst_size := cfg.burst,
                 remaining_burst_capacity := st.tokens - 1 },
           { st with tokens := st.tokens - 1 }) := by
        unfold trackerDecide
        rw [hrefill, if_neg h0]
      have hrun : (runDecides cfg st (t :: ts)).1 =
          (runDecides cfg { st with tokens := st.tokens - 1 } ts).1 + 1 := by
        simp only [runDecides, hdec]
      rw [hrun]
      have hrec := ih { st with tokens := st.tokens - 1 }
        (by simp; omega) (fun u hu => hwin u (by simp [hu]))
      simp only at hrec
      omega

/-! Header-lookup lemmas. -/

lemma getHeader_insertHeader_self (hs : List Header) (n v : String) :
    getHeader (insertHeader hs n v) n = some v := by
  induction hs with
  | nil => simp [getHeader, insertHeader]
  | cons h t ih =>
    by_cases hn : h.name = n
    · simpa [insertHeader, hn] using ih
    · simpa [insertHeader, getHeader, hn] using ih

lemma getHeader_insertHeader_other (hs : List Header) (n v m : String)
    (hnm : n ≠ m) :
    getHeader (insertHeader hs n v) m = getHeader hs m := by
  induction hs with
  | nil => simp [getHeader, insertHeader, hnm]
  | cons h t ih =>
    by_cases hn : h.name = n
    · rw [show getHeader (h :: t) m = getHeader t m by
        simp [getHeader, List.find?, show (h.name == m) = false by
          simp [hn]; exact hnm]]
      simpa [insertHeader, hn] using ih
    · by_cases hm : h.name = m
      · simp [insertHeader, getHeader, List.find?, hn, hm, Ne.symm hnm]
      · rw [show getHeader (h :: t) m = getHeader t m by
          simp [getHeader, List.find?, show (h.name == m) = false by
            simpa using hm]]
        have : getHeader (insertHeader (h :: t) n v) m =
            getHeader (insertHeader t n v) m := by
          simp [insertHeader, getHeader, List.find?, hn,
            show (h.name == m) = false by simpa using hm]
        rw [this]
        exact ih

/-! The claims. -/

/-- C1: the claim says a failed key extraction yields a 500 response whose
body contains the extraction error's text, with no rate-limit headers.
The code constructs such a response at `call` time, but
`ResponseFuture::poll`'s `Error` branch rebuilds the response from only
the stored status, so the future resolves to status 500 with no headers
and the fixed body "Too many requests", which does not contain the error
text "missing header X-Api-Key".  The construction of the error-text body
at lines 313-318 is dead code, contradicting the body part of the
claim. -/
theorem C1_extraction_error_body_replaced :
    (callStateInfo (K := String) (E := String) none
        (fun _ => .error "missing header X-Api-Key")
        (fun _ => .ok ⟨2, 1⟩)
        (fun _ => ⟨0, .ok ⟨200, [], "downstream"⟩⟩)
        ⟨"GET", []⟩).kind =
      .error (some ⟨500, [], "missing header X-Api-Key"⟩) ∧
    (pollKind (Kind.error (E := String)
        (some ⟨500, [], "missing header X-Api-Key"⟩))).1 =
      some (.ready (.ok ⟨500, [], "Too many requests"⟩)) ∧
    ¬ List.IsInfix "missing header X-Api-Key".data "Too many requests".data := by
  exact ⟨rfl, rfl, by decide⟩

/-- C2: the claim says a denied request resolves to a 429 response
carrying the `x-ratelimit-after`, burst-size and zero-remaining headers.
The code attaches all three headers to the response it stores at `call`
time (state-information variant), but `ResponseFuture::poll`'s `Error`
branch rebuilds the response from only the stored status, so the future
resolves to a 429 with an empty header list: none of the three headers
survives to the resolved response. -/
theorem C2_denied_response_headers_dropped :
    (callStateInfo (K := String) (E := String) none
        (fun _ => .ok "key")
        (fun _ => .error ⟨7, 4⟩)
        (fun _ => ⟨0, .ok ⟨200, [], "downstream"⟩⟩)
        ⟨"GET", []⟩).kind =
      .error (some ⟨429,
        [⟨"x-ratelimit-after", "7"⟩, ⟨"x-ratelimit-limit", "4"⟩,
         ⟨"x-ratelimit-remaining", "0"⟩], "Too many requests"⟩) ∧
    (pollKind (Kind.error (E := String)
        (some ⟨429,
          [⟨"x-ratelimit-after", "7"⟩, ⟨"x-ratelimit-limit", "4"⟩,
           ⟨"x-ratelimit-remaining", "0"⟩], "Too many requests"⟩))).1 =
      some (.ready (.ok ⟨429, [], "Too many requests"⟩)) ∧
    getHeader ([] : List Header) "x-ratelimit-after" = none ∧
    getHeader ([] : List Header) "x-ratelimit-limit" = none ∧
    getHeader ([] : List Header) "x-ratelimit-remaining" = none := by
  exact ⟨rfl, rfl, rfl, rfl, rfl⟩

/-- C3: under the state-information variant, an admitted request's
downstream response, once resolved, carries exactly the two headers
`x-ratelimit-limit` (the configured burst size) and
`x-ratelimit-remaining` (the remaining token count captured at decision
time) added on top of its own headers; the values are the snapshot's,
taken when `check_key` returned, never re-queried (the poll function does
not consult the tracker); and remaining ≤ limit, with the snapshot
produced by the spec-modelled tracker. -/
theorem C3_admitted_headers {K E : Type}
    (cfg : TrackerConfig) (st : BucketState) (now : Nat)
    (methods : Option (List String)) (extract : Request → Except String K)
    (checkKey : K → Except NotUntil StateSnapshot)
    (inner : Request → DownFuture E) (req : Request) (key : K)
    (snap : StateSnapshot) (p : Nat) (resp : Response)
    (hby : bypassesLimiting methods req = false)
    (hex : extract req = .ok key)
    (hck : checkKey key = .ok snap)
    (hsnap : (trackerDecide cfg st now).1 = .ok snap)
    (hinner : inner req = ⟨p, .ok resp⟩) :
    (callStateInfo methods extract checkKey inner req).kind =
      .rateLimitHeader ⟨p, .ok resp⟩
        snap.burst_size snap.remaining_burst_capacity ∧
    (pollN (callStateInfo methods extract checkKey inner req).kind p).1 =
      some (.ready (.ok { resp with
        headers := insertHeader
          (insertHeader resp.headers "x-ratelimit-limit"
            (toString snap.burst_size))
          "x-ratelimit-remaining"
          (toString snap.remaining_burst_capacity) })) ∧
    getHeader (insertHeader
        (insertHeader resp.headers "x-ratelimit-limit"
          (toString snap.burst_size))
        "x-ratelimit-remaining" (toString snap.remaining_burst_capacity))
      "x-ratelimit-remaining" = some (toString snap.remaining_burst_capacity) ∧
    getHeader (insertHeader
        (insertHeader resp.headers "x-ratelimit-limit"
          (toString snap.burst_size))
        "x-ratelimit-remaining" (toString snap.remaining_burst_capacity))
      "x-ratelimit-limit" =
      some (toString snap.burst_size) ∧
    snap.remaining_burst_capacity ≤ snap.burst_size := by
  have hkind : (callStateInfo methods extract checkKey inner req).kind =
      .rateLimitHeader ⟨p, .ok resp⟩
        snap.burst_size snap.remaining_burst_capacity := by
    simp [callStateInfo, hby, hex, hck, hinner]
  refine ⟨hkind, ?_, ?_, ?_, ?_⟩
  · rw [hkind, pollN_rateLimitHeader_ok]
  · exact getHeader_insertHeader_self _ _ _
  · rw [getHeader_insertHeader_other _ _ _ _ (by decide)]
    exact getHeader_insertHeader_self _ _ _
  · rcases trackerDecide_ok_burst hsnap with ⟨hb, hr⟩
    omega

/-- Witness for C3 at a concrete input: burst 2, period 10, full bucket
at time 0, a one-poll-pending downstream response with one header of its
own. -/
theorem C3_admitted_headers_witness :
    (callStateInfo (K := String) (E := String) none
        (fun _ => .ok "k") (fun _ => .ok ⟨2, 1⟩)
        (fun _ => ⟨1, .ok ⟨200, [⟨"a", "b"⟩], "x"⟩⟩) ⟨"GET", []⟩).kind =
      .rateLimitHeader ⟨1, .ok ⟨200, [⟨"a", "b"⟩], "x"⟩⟩
        (StateSnapshot.mk 2 1).burst_size
        (StateSnapshot.mk 2 1).remaining_burst_capacity ∧
    (pollN (callStateInfo (K := String) (E := String) none
        (fun _ => .ok "k") (fun _ => .ok ⟨2, 1⟩)
        (fun _ => ⟨1, .ok ⟨200, [⟨"a", "b"⟩], "x"⟩⟩) ⟨"GET", []⟩).kind 1).1 =
      some (.ready (.ok { Response.mk 200 [⟨"a", "b"⟩] "x" with
        headers := insertHeader
          (insertHeader [⟨"a", "b"⟩] "x-ratelimit-limit"
            (toString (StateSnapshot.mk 2 1).burst_size))
          "x-ratelimit-remaining"
          (toString (StateSnapshot.mk 2 1).remaining_burst_capacity) })) ∧
    getHeader (insertHeader
        (insertHeader [⟨"a", "b"⟩] "x-ratelimit-limit"
          (toString (StateSnapshot.mk 2 1).burst_size))
        "x-ratelimit-remaining"
        (toString (StateSnapshot.mk 2 1).remaining_burst_capacity))
      "x-ratelimit-remaining" =
      some (toString (StateSnapshot.mk 2 1).remaining_burst_capacity) ∧
    getHeader (insertHeader
        (insertHeader [⟨"a", "b"⟩] "x-ratelimit-limit"
          (toString (StateSnapshot.mk 2 1).burst_size))
        "x-ratelimit-remaining"
        (toString (StateSnapshot.mk 2 1).remaining_burst_capacity))
      "x-ratelimit-limit" = some (toString (StateSnapshot.mk 2 1).burst_size) ∧
    (StateSnapshot.mk 2 1).remaining_burst_capacity ≤
      (StateSnapshot.mk 2 1).burst_size :=
  C3_admitted_headers ⟨2, 10⟩ ⟨2, 0⟩ 0 none
    (fun _ => .ok "k") (fun _ => .ok ⟨2, 1⟩)
    (fun _ => ⟨1, .ok ⟨200, [⟨"a", "b"⟩], "x"⟩⟩) ⟨"GET", []⟩ "k"
    ⟨2, 1⟩ 1 ⟨200, [⟨"a", "b"⟩], "x"⟩
    (by decide) rfl rfl (by decide) rfl

/-- C4 counterexample: under the no-op variant, a GET request with
allow-list {POST} bypasses the tracker and is forwarded, but its resolved
response is the downstream response unchanged — it does not carry the
`x-ratelimit-whitelisted` header the claim requires (the bypass branch at
lines 72-79 builds `Kind::Passthrough`, which adds nothing). -/
theorem C4_noop_whitelist_header_missing :
    (callNoOp (K := String) (E := String) (some ["POST"])
        (fun _ => .ok "k") (fun _ => .ok ⟨2, 1⟩)
        (fun _ => ⟨0, .ok ⟨200, [], "hello"⟩⟩) ⟨"GET", []⟩).trackerConsulted
      = false ∧
    (callNoOp (K := String) (E := String) (some ["POST"])
        (fun _ => .ok "k") (fun _ => .ok ⟨2, 1⟩)
        (fun _ => ⟨0, .ok ⟨200, [], "hello"⟩⟩) ⟨"GET", []⟩).kind =
      .passthrough ⟨0, .ok ⟨200, [], "hello"⟩⟩ ∧
    (pollKind (Kind.passthrough (E := String)
        ⟨0, .ok ⟨200, [], "hello"⟩⟩)).1 =
      some (.ready (.ok ⟨200, [], "hello"⟩)) ∧
    getHeader ([] : List Header) "x-ratelimit-whitelisted" = none := by
  exact ⟨rfl, rfl, rfl, rfl⟩

/-- C4 (amended): for every request whose method is not in the configured
allow-list, the quota tracker is never consulted and the request is
forwarded downstream under both variants; under the state-information
variant the resolved response carries `x-ratelimit-whitelisted: true`,
while under the no-op variant the downstream response is forwarded
unchanged, with no such header added. -/
theorem C4_method_bypass_amended {K E : Type}
    (methods : Option (List String)) (extract : Request → Except String K)
    (checkKey : K → Except NotUntil StateSnapshot)
    (inner : Request → DownFuture E) (req : Request)
    (p : Nat) (resp : Response)
    (hby : bypassesLimiting methods req = true)
    (hinner : inner req = ⟨p, .ok resp⟩) :
    (callNoOp methods extract checkKey inner req).trackerConsulted = false ∧
    (callNoOp methods extract checkKey inner req).innerCalled = true ∧
    (callNoOp methods extract checkKey inner req).kind =
      .passthrough ⟨p, .ok resp⟩ ∧
    (pollN (callNoOp methods extract checkKey inner req).kind p).1 =
      some (.ready (.ok resp)) ∧
    (callStateInfo methods extract checkKey inner req).trackerConsulted
      = false ∧
    (callStateInfo methods extract checkKey inner req).innerCalled = true ∧
    (callStateInfo methods extract checkKey inner req).kind =
      .whitelistedHeader ⟨p, .ok resp⟩ ∧
    (pollN (callStateInfo methods extract checkKey inner req).kind p).1 =
      some (.ready (.ok { resp with
        headers := insertHeader resp.headers "x-ratelimit-whitelisted"
          "true" })) ∧
    getHeader (insertHeader resp.headers "x-ratelimit-whitelisted" "true")
      "x-ratelimit-whitelisted" = some "true" := by
  have hk1 : (callNoOp methods extract checkKey inner req).kind =
      .passthrough ⟨p, .ok resp⟩ := by
    simp [callNoOp, hby, hinner]
  have hk2 : (callStateInfo methods extract checkKey inner req).kind =
      .whitelistedHeader ⟨p, .ok resp⟩ := by
    simp [callStateInfo, hby, hinner]
  refine ⟨by simp [callNoOp, hby], by simp [callNoOp, hby], hk1, ?_,
    by simp [callStateInfo, hby], by simp [callStateInfo, hby], hk2, ?_, ?_⟩
  · rw [hk1, pollN_passthrough]
  · rw [hk2, pollN_whitelistedHeader_ok]
  · exact getHeader_insertHeader_self _ _ _

/-- Witness for C4 (amended) at a concrete input: allow-list {POST}, a
GET request, downstream resolving immediately to a bare 200. -/
theorem C4_method_bypass_amended_witness :
    (callNoOp (K := String) (E := String) (some ["POST"])
        (fun _ => .ok "k") (fun _ => .ok ⟨2, 1⟩)
        (fun _ => ⟨0, .ok ⟨200, [], "body"⟩⟩) ⟨"GET", []⟩).trackerConsulted
      = false ∧
    (callNoOp (K := String) (E := String) (some ["POST"])
        (fun _ => .ok "k") (fun _ => .ok ⟨2, 1⟩)
        (fun _ => ⟨0, .ok ⟨200, [], "body"⟩⟩) ⟨"GET", []⟩).innerCalled
      = true ∧
    (callNoOp (K := String) (E := String) (some ["POST"])
        (fun _ => .ok "k") (fun _ => .ok ⟨2, 1⟩)
        (fun _ => ⟨0, .ok ⟨200, [], "body"⟩⟩) ⟨"GET", []⟩).kind =
      .passthrough ⟨0, .ok ⟨200, [], "body"⟩⟩ ∧
    (pollN (callNoOp (K := String) (E := String) (some ["POST"])
        (fun _ => .ok "k") (fun _ => .ok ⟨2, 1⟩)
        (fun _ => ⟨0, .ok ⟨200, [], "body"⟩⟩) ⟨"GET", []⟩).kind 0).1 =
      some (.ready (.ok ⟨200, [], "body"⟩)) ∧
    (callStateInfo (K := String) (E := String) (some ["POST"])
        (fun _ => .ok "k") (fun _ => .ok ⟨2, 1⟩)
        (fun _ => ⟨0, .ok ⟨200, [], "body"⟩⟩) ⟨"GET", []⟩).trackerConsulted
      = false ∧
    (callStateInfo (K := String) (E := String) (some ["POST"])
        (fun _ => .ok "k") (fun _ => .ok ⟨2, 1⟩)
        (fun _ => ⟨0, .ok ⟨200, [], "body"⟩⟩) ⟨"GET", []⟩).innerCalled
      = true ∧
    (callStateInfo (K := String) (E := String) (some ["POST"])
        (fun _ => .ok "k") (fun _ => .ok ⟨2, 1⟩)
        (fun _ => ⟨0, .ok ⟨200, [], "body"⟩⟩) ⟨"GET", []⟩).kind =
      .whitelistedHeader ⟨0, .ok ⟨200, [], "body"⟩⟩ ∧
    (pollN (callStateInfo (K := String) (E := String) (some ["POST"])
        (fun _ => .ok "k") (fun _ => .ok ⟨2, 1⟩)
        (fun _ => ⟨0, .ok ⟨200, [], "body"⟩⟩) ⟨"GET", []⟩).kind 0).1 =
      some (.ready (.ok { Response.mk 200 [] "body" with
        headers := insertHeader [] "x-ratelimit-whitelisted" "true" })) ∧
    getHeader (insertHeader [] "x-ratelimit-whitelisted" "true")
      "x-ratelimit-whitelisted" = some "true" :=
  C4_method_bypass_amended (some ["POST"])
    (fun _ => .ok "k") (fun _ => .ok ⟨2, 1⟩)
    (fun _ => ⟨0, .ok ⟨200, [], "body"⟩⟩) ⟨"GET", []⟩ 0
    ⟨200, [], "body"⟩ (by decide) rfl

/-- C5: for every request whose outcome is Deny or key-extraction
failure, neither variant invokes the downstream service
(`self.inner.call` is not reached), the constructed future is in the
`Error` shape — which wraps no downstream completion at all — and its
first poll already returns `Ready` with the synthesized response. -/
theorem C5_terminal_no_downstream {K E : Type}
    (methods : Option (List String)) (extract : Request → Except String K)
    (checkKey : K → Except NotUntil StateSnapshot)
    (inner : Request → DownFuture E) (req : Request)
    (hby : bypassesLimiting methods req = false)
    (hterm : (∃ e, extract req = .error e) ∨
      (∃ key ntu, extract req = .ok key ∧ checkKey key = .error ntu)) :
    ((callNoOp methods extract checkKey inner req).innerCalled = false ∧
     kindTag (callNoOp methods extract checkKey inner req).kind = .error ∧
     ∃ out, (pollKind (callNoOp methods extract checkKey inner req).kind).1
       = some (.ready (.ok out))) ∧
    ((callStateInfo methods extract checkKey inner req).innerCalled
       = false ∧
     kindTag (callStateInfo methods extract checkKey inner req).kind
       = .error ∧
     ∃ out,
       (pollKind (callStateInfo methods extract checkKey inner req).kind).1
         = some (.ready (.ok out))) := by
  rcases hterm with ⟨e, hex⟩ | ⟨key, ntu, hex, hck⟩
  · constructor
    · refine ⟨by simp [callNoOp, hby, hex], by simp [callNoOp, hby, hex,
        kindTag], ?_⟩
      exact ⟨⟨500, [], "Too many requests"⟩,
        by simp [callNoOp, hby, hex, pollKind]⟩
    · refine ⟨by simp [callStateInfo, hby, hex],
        by simp [callStateInfo, hby, hex, kindTag], ?_⟩
      exact ⟨⟨500, [], "Too many requests"⟩,
        by simp [callStateInfo, hby, hex, pollKind]⟩
  · constructor
    · refine ⟨by simp [callNoOp, hby, hex, hck],
        by simp [callNoOp, hby, hex, hck, kindTag], ?_⟩
      exact ⟨⟨429, [], "Too many requests"⟩,
        by simp [callNoOp, hby, hex, hck, pollKind]⟩
    · refine ⟨by simp [callStateInfo, hby, hex, hck],
        by simp [callStateInfo, hby, hex, hck, kindTag], ?_⟩
      exact ⟨⟨429, [], "Too many requests"⟩,
        by simp [callStateInfo, hby, hex, hck, pollKind]⟩

/-- Witness for C5 at a concrete input: no allow-list and an extractor
that fails. -/
theorem C5_terminal_no_downstream_witness :
    ((callNoOp (K := String) (E := String) none
        (fun _ => .error "no key") (fun _ => .ok ⟨2, 1⟩)
        (fun _ => ⟨0, .ok ⟨200, [], "hi"⟩⟩) ⟨"GET", []⟩).innerCalled
        = false ∧
     kindTag (callNoOp (K := String) (E := String) none
        (fun _ => .error "no key") (fun _ => .ok ⟨2, 1⟩)
        (fun _ => ⟨0, .ok ⟨200, [], "hi"⟩⟩) ⟨"GET", []⟩).kind = .error ∧
     ∃ out, (pollKind (callNoOp (K := String) (E := String) none
        (fun _ => .error "no key") (fun _ => .ok ⟨2, 1⟩)
        (fun _ => ⟨0, .ok ⟨200, [], "hi"⟩⟩) ⟨"GET", []⟩).kind).1 =
       some (.ready (.ok out))) ∧
    ((callStateInfo (K := String) (E := String) none
        (fun _ => .error "no key") (fun _ => .ok ⟨2, 1⟩)
        (fun _ => ⟨0, .ok ⟨200, [], "hi"⟩⟩) ⟨"GET", []⟩).innerCalled
        = false ∧
     kindTag (callStateInfo (K := String) (E := String) none
        (fun _ => .error "no key") (fun _ => .ok ⟨2, 1⟩)
        (fun _ => ⟨0, .ok ⟨200, [], "hi"⟩⟩) ⟨"GET", []⟩).kind = .error ∧
     ∃ out, (pollKind (callStateInfo (K := String) (E := String) none
        (fun _ => .error "no key") (fun _ => .ok ⟨2, 1⟩)
        (fun _ => ⟨0, .ok ⟨200, [], "hi"⟩⟩) ⟨"GET", []⟩).kind).1 =
       some (.ready (.ok out))) :=
  C5_terminal_no_downstream none
    (fun _ => .error "no key") (fun _ => .ok ⟨2, 1⟩)
    (fun _ => ⟨0, .ok ⟨200, [], "hi"⟩⟩) ⟨"GET", []⟩
    (by decide) (.inl ⟨"no key", rfl⟩)

/-- C6: with the tracker modelled from the spec (§4.3, §5 — per-key
atomic decisions; any concurrent interleaving for one key linearizes to
a sequence of such decisions), any sequence of decisions whose
timestamps all fall inside one refill window (before
`lastRefill + period`, so no token refills) admits at most the
configured burst size: no lost update and no double-spend can push the
admit count past the burst. -/
theorem C6_token_conservation (cfg : TrackerConfig) (st : BucketState)
    (times : List Nat)
    (hper : 0 < cfg.period)
    (htok : st.tokens ≤ cfg.burst)
    (hwin : ∀ t ∈ times, t < st.lastRefill + cfg.period) :
    (runDecides cfg st times).1 ≤ cfg.burst :=
  le_trans (runDecides_window_le hper times st htok hwin) htok

/-- Witness for C6 at a concrete input: burst 2, period 10, full fresh
bucket, three decisions inside the window (the third is denied). -/
theorem C6_token_conservation_witness :
    0 < (TrackerConfig.mk 2 10).period ∧
    (BucketState.mk 2 0).tokens ≤ (TrackerConfig.mk 2 10).burst ∧
    (∀ t ∈ [0, 1, 2], t < (BucketState.mk 2 0).lastRefill +
      (TrackerConfig.mk 2 10).period) ∧
    (runDecides ⟨2, 10⟩ ⟨2, 0⟩ [0, 1, 2]).1 ≤ (TrackerConfig.mk 2 10).burst :=
  ⟨by decide, by decide, by decide,
    C6_token_conservation ⟨2, 10⟩ ⟨2, 0⟩ [0, 1, 2]
      (by decide) (by decide) (by decide)⟩

lemma kindTag_pollN {E : Type} : ∀ (n : Nat) (k : Kind E),
    kindTag (pollN k n).2 = kindTag k
  | 0, k => kindTag_pollKind k
  | n + 1, k => by
    show kindTag (pollN (pollKind k).2 n).2 = kindTag k
    rw [kindTag_pollN n (pollKind k).2, kindTag_pollKind]

/-- C7: a downstream handler completion that resolves to an error has
that error value returned unchanged by the Passthrough, RateLimitHeader
and WhitelistedHeader branches of `ResponseFuture::poll` — no
modification, no inspection, no retry: the poll that observes the
downstream `Err(e)` yields exactly `Ready(Err(e))` in all three
shapes. -/
theorem C7_downstream_error_propagated {E : Type} (p b rem : Nat) (e : E) :
    (pollN (Kind.passthrough ⟨p, .error e⟩) p).1 =
      some (.ready (.error e)) ∧
    (pollN (Kind.rateLimitHeader ⟨p, .error e⟩ b rem) p).1 =
      some (.ready (.error e)) ∧
    (pollN (Kind.whitelistedHeader ⟨p, .error e⟩) p).1 =
      some (.ready (.error e)) := by
  refine ⟨?_, ?_, ?_⟩
  · rw [pollN_passthrough]
  · rw [pollN_rateLimitHeader_err]
  · rw [pollN_whitelistedHeader_err]

/-- C8: the shape chosen at construction is invariant across every poll:
after any number of polls the `Kind`'s constructor tag is unchanged, and
one poll of each future-wrapping shape only advances the wrapped
downstream completion, keeping the shape's other fields, while the
`Error` shape keeps its stored response untouched. -/
theorem C8_shape_invariant {E : Type} :
    (∀ (k : Kind E) (n : Nat), kindTag (pollN k n).2 = kindTag k) ∧
    (∀ f : DownFuture E,
      (pollKind (Kind.passthrough f)).2 = .passthrough (pollDown f).2) ∧
    (∀ (f : DownFuture E) (b rem : Nat),
      (pollKind (Kind.rateLimitHeader f b rem)).2 =
        .rateLimitHeader (pollDown f).2 b rem) ∧
    (∀ f : DownFuture E,
      (pollKind (Kind.whitelistedHeader f)).2 =
        .whitelistedHeader (pollDown f).2) ∧
    (∀ opt : Option Response,
      (pollKind (Kind.error (E := E) opt)).2 = .error opt) := by
  refine ⟨fun k n => kindTag_pollN n k, fun f => rfl, ?_, ?_, ?_⟩
  · intro f b rem
    rcases h : pollDown f with ⟨pr, f'⟩
    cases pr with
    | ready v => cases v <;> simp [pollKind, h]
    | pending => simp [pollKind, h]
  · intro f
    rcases h : pollDown f with ⟨pr, f'⟩
    cases pr with
    | ready v => cases v <;> simp [pollKind, h]
    | pending => simp [pollKind, h]
  · intro opt
    cases opt <;> simp [pollKind]

/-- C9: under the no-op variant, both an admitted request and a request
bypassing limiting via the method allow-list build `Kind::Passthrough`,
and the resolved response is the downstream response itself — byte for
byte, so in particular no `x-ratelimit-limit`, `x-ratelimit-remaining`
or `x-ratelimit-whitelisted` header is added on these paths. -/
theorem C9_noop_passthrough_unchanged {K E : Type}
    (methods : Option (List String)) (extract : Request → Except String K)
    (checkKey : K → Except NotUntil StateSnapshot)
    (inner : Request → DownFuture E) (req : Request)
    (key : K) (snap : StateSnapshot) (p : Nat) (resp : Response)
    (hinner : inner req = ⟨p, .ok resp⟩)
    (hadm : bypassesLimiting methods req = true ∨
      (bypassesLimiting methods req = false ∧
        extract req = .ok key ∧ checkKey key = .ok snap)) :
    (callNoOp methods extract checkKey inner req).kind =
      .passthrough ⟨p, .ok resp⟩ ∧
    (pollN (callNoOp methods extract checkKey inner req).kind p).1 =
      some (.ready (.ok resp)) := by
  have hkind : (callNoOp methods extract checkKey inner req).kind =
      .passthrough ⟨p, .ok resp⟩ := by
    rcases hadm with hby | ⟨hby, hex, hck⟩
    · simp [callNoOp, hby, hinner]
    · simp [callNoOp, hby, hex, hck, hinner]
  refine ⟨hkind, ?_⟩
  rw [hkind, pollN_passthrough]

/-- Witness for C9 at a concrete input: no allow-list, extraction and
quota check succeed, downstream resolves after one pending poll to a 200
with one header of its own. -/
theorem C9_noop_passthrough_unchanged_witness :
    (callNoOp (K := String) (E := String) none
        (fun _ => .ok "k") (fun _ => .ok ⟨3, 2⟩)
        (fun _ => ⟨1, .ok ⟨200, [⟨"c", "d"⟩], "payload"⟩⟩)
        ⟨"POST", []⟩).kind =
      .passthrough ⟨1, .ok ⟨200, [⟨"c", "d"⟩], "payload"⟩⟩ ∧
    (pollN (callNoOp (K := String) (E := String) none
        (fun _ => .ok "k") (fun _ => .ok ⟨3, 2⟩)
        (fun _ => ⟨1, .ok ⟨200, [⟨"c", "d"⟩], "payload"⟩⟩)
        ⟨"POST", []⟩).kind 1).1 =
      some (.ready (.ok ⟨200, [⟨"c", "d"⟩], "payload"⟩)) :=
  C9_noop_passthrough_unchanged none
    (fun _ => .ok "k") (fun _ => .ok ⟨3, 2⟩)
    (fun _ => ⟨1, .ok ⟨200, [⟨"c", "d"⟩], "payload"⟩⟩)
    ⟨"POST", []⟩ "k" ⟨3, 2⟩ 1 ⟨200, [⟨"c", "d"⟩], "payload"⟩
    rfl (.inr ⟨by decide, rfl, rfl⟩)

lemma callNoOp_error_isSome {K E : Type}
    {methods : Option (List String)} {extract : Request → Except String K}
    {checkKey : K → Except NotUntil StateSnapshot}
    {inner : Request → DownFuture E} {req : Request}
    {opt : Option Response}
    (h : (callNoOp methods extract checkKey inner req).kind = .error opt) :
    opt.isSome = true := by
  by_cases hby : bypassesLimiting methods req
  · simp [callNoOp, hby] at h
  · rcases hex : extract req with e | key
    · simp [callNoOp, hby, hex] at h
      simp [← h]
    · rcases hck : checkKey key with ntu | snap
      · simp [callNoOp, hby, hex, hck] at h
        simp [← h]
      · simp [callNoOp, hby, hex, hck] at h

lemma callStateInfo_error_isSome {K E : Type}
    {methods : Option (List String)} {extract : Request → Except String K}
    {checkKey : K → Except NotUntil StateSnapshot}
    {inner : Request → DownFuture E} {req : Request}
    {opt : Option Response}
    (h : (callStateInfo methods extract checkKey inner req).kind =
      .error opt) :
    opt.isSome = true := by
  by_cases hby : bypassesLimiting methods req
  · simp [callStateInfo, hby] at h
  · rcases hex : extract req with e | key
    · simp [callStateInfo, hby, hex] at h
      simp [← h]
    · rcases hck : checkKey key with ntu | snap
      · simp [callStateInfo, hby, hex, hck] at h
        simp [← h]
      · simp [callStateInfo, hby, hex, hck] at h

/-- C10: every future either variant constructs in the `Error` shape has
`error_response = Some …` at construction, and every poll of an `Error`
future with a `Some` stored response returns `Ready` (never the panic
outcome, modelled as `none`) and leaves the stored response in place —
so repeated polls keep succeeding: the `unwrap` in the `Error` branch of
`poll` never panics. -/
theorem C10_error_unwrap_safe {K E : Type}
    (methods : Option (List String)) (extract : Request → Except String K)
    (checkKey : K → Except NotUntil StateSnapshot)
    (inner : Request → DownFuture E) (req : Request)
    (opt : Option Response)
    (h : (callNoOp methods extract checkKey inner req).kind = .error opt ∨
      (callStateInfo methods extract checkKey inner req).kind =
        .error opt) :
    opt.isSome = true ∧
    ∀ (r : Response) (n : Nat),
      pollN (E := E) (.error (some r)) n =
        (some (.ready (.ok ⟨r.status, [], "Too many requests"⟩)),
         .error (some r)) := by
  refine ⟨?_, fun r n => pollN_error_some n r⟩
  rcases h with h | h
  · exact callNoOp_error_isSome h
  · exact callStateInfo_error_isSome h

/-- Witness for C10 at a concrete input: a denied request under the
no-op variant stores a `Some` 429 response. -/
theorem C10_error_unwrap_safe_witness :
    (some (Response.mk 429 [⟨"x-ratelimit-after", "7"⟩]
      "Too many requests")).isSome = true ∧
    ∀ (r : Response) (n : Nat),
      pollN (E := String) (.error (some r)) n =
        (some (.ready (.ok ⟨r.status, [], "Too many requests"⟩)),
         .error (some r)) :=
  C10_error_unwrap_safe (K := String) (E := String) none
    (fun _ => .ok "k") (fun _ => .error ⟨7, 4⟩)
    (fun _ => ⟨0, .ok ⟨200, [], "hi"⟩⟩) ⟨"GET", []⟩
    (some ⟨429, [⟨"x-ratelimit-after", "7"⟩], "Too many requests"⟩)
    (.inl rfl)

end TowerGovernor
